import Mathlib

/-!
Verification development for the product-analyzer frontend.

The repository is a React frontend: two variants of an App component
(one with a Use Dynamic Analysis checkbox posting to analyze or
analyze-dynamic, one with a goal/questions mode posting only to
analyze-dynamic), a QuestionsInput component, an ErrorDisplay component,
and an AnalysisResults renderer.  The definitions below are a shallow
embedding of that code: JSON payloads are modelled by an inductive Json
type, JavaScript member access, truthiness and string coercion by
explicit functions, the async submit handlers by pure functions from the
component state and the fetch outcome to the list of issued requests and
the final state, and the JSX result section by record-valued render
functions.
-/

/-! JavaScript value model. -/

/-- A JSON value as produced by response.json(); also used for the
loosely typed results state of the App components. -/
inductive Json where
  | null
  | bool (b : Bool)
  | num (q : ℚ)
  | str (s : String)
  | arr (elems : List Json)
  | obj (fields : List (String × Json))

/-- JavaScript member access j.key: a lookup on objects, undefined
(modelled as none) on every other value.  Access on null or undefined
throws in JavaScript; callers model that case explicitly. -/
def jsMember : Json → String → Option Json
  | .obj fields, key => (fields.find? (fun p => p.1 == key)).map (fun p => p.2)
  | _, _ => none

/-- JavaScript truthiness of a value.  (NaN, which is also falsy, has no
representative here; JSON never contains it.) -/
def Json.truthy : Json → Bool
  | .null => false
  | .bool b => b
  | .num q => !(q == 0)
  | .str s => !(s == "")
  | .arr _ => true
  | .obj _ => true

/-- Truthiness of a possibly undefined value (undefined is falsy). -/
def truthyOpt : Option Json → Bool
  | none => false
  | some j => j.truthy

mutual

/-- The JavaScript String() coercion, as applied to an Error argument:
strings unchanged, booleans and null by name, arrays joined by commas,
plain objects as the standard object tag.  Number formatting is the
Lean rendering of the rational. -/
def jsToString : Json → String
  | .null => "null"
  | .bool b => if b then "true" else "false"
  | .num q => toString q
  | .str s => s
  | .arr elems => String.intercalate "," (jsToStringList elems)
  | .obj _ => "[object Object]"

def jsToStringList : List Json → List String
  | [] => []
  | x :: xs => jsToString x :: jsToStringList xs

end

/-- Object.keys of a value: the own enumerable keys (field names of an
object, index strings of an array or a string, nothing for
primitives). -/
def jsObjectKeys : Json → List String
  | .obj fields => fields.map (fun p => p.1)
  | .arr elems => (List.range elems.length).map toString
  | .str s => (List.range s.length).map toString
  | _ => []

/-- The whitespace class stripped by the JavaScript String trim
method (WhiteSpace plus LineTerminator code points). -/
def isJsWhitespace (c : Char) : Bool :=
  c.toNat ∈ [0x9, 0xa, 0xb, 0xc, 0xd, 0x20, 0xa0, 0x1680, 0x2000, 0x2001, 0x2002,
    0x2003, 0x2004, 0x2005, 0x2006, 0x2007, 0x2008, 0x2009, 0x200a, 0x2028, 0x2029,
    0x202f, 0x205f, 0x3000, 0xfeff]

/-- The JavaScript String trim method: strips leading and trailing
whitespace. -/
def jsTrim (s : String) : String :=
  String.mk (((s.data.dropWhile isJsWhitespace).reverse.dropWhile isJsWhitespace).reverse)

/-- One hexadecimal digit, lowercase. -/
def hexDigit (n : Nat) : Char :=
  if n < 10 then Char.ofNat (48 + n) else Char.ofNat (87 + n)

/-- Four hexadecimal digits, as used by JSON \u escapes. -/
def hex4 (n : Nat) : String :=
  String.mk [hexDigit (n / 4096 % 16), hexDigit (n / 256 % 16),
    hexDigit (n / 16 % 16), hexDigit (n % 16)]

/-- The escaping JSON.stringify applies to one character of a string. -/
def jsonEscapeChar (c : Char) : String :=
  if c.toNat = 34 then "\\\""
  else if c.toNat = 92 then "\\\\"
  else if c.toNat = 8 then "\\b"
  else if c.toNat = 9 then "\\t"
  else if c.toNat = 10 then "\\n"
  else if c.toNat = 12 then "\\f"
  else if c.toNat = 13 then "\\r"
  else if c.toNat < 32 then "\\u" ++ hex4 c.toNat
  else String.singleton c

/-- JSON.stringify of one string. -/
def jsonQuote (s : String) : String :=
  "\"" ++ String.join (s.data.map jsonEscapeChar) ++ "\""

/-- JSON.stringify of an array of strings, as used for the questions
form field. -/
def jsonStringifyStrings (qs : List String) : String :=
  "[" ++ String.intercalate "," (qs.map jsonQuote) ++ "]"

/-! The browser-facing data: files, form data, requests and fetch
outcomes. -/

/-- A browser File object, reduced to the properties the code reads. -/
structure BrowserFile where
  name : String
  type : String
deriving Repr, DecidableEq

/-- A multipart form data entry value: a text field or a file field. -/
inductive FormValue where
  | text (s : String)
  | file (f : BrowserFile)
deriving Repr, DecidableEq

/-- One HTTP request as issued by fetch. -/
structure Request where
  url : String
  method : String
  body : List (String × FormValue)
deriving Repr, DecidableEq

/-- The outcome of the single awaited fetch of a submission: the fetch
promise rejects, the response body fails to parse as JSON, the response
status is not ok, or an ok response with a parsed JSON body. -/
inductive FetchOutcome where
  | networkError (message : String)
  | jsonError (message : String)
  | httpError (status : Nat) (statusText : String) (body : String)
  | ok (data : Json)

/-- The message of the Error thrown for a non-success payload:
new Error(data.error or the fallback), with the fallback when the error
field is absent or falsy. -/
def payloadErrorMessage (data : Json) : String :=
  match jsMember data "error" with
  | some v => if v.truthy then jsToString v else "Analysis failed"
  | none => "Analysis failed"

/-- A property of a JS object literal whose value expression may be
undefined.  A property holding undefined is omitted here, which is
observationally equivalent for the member reads and truthiness tests the
renderer performs on the results object. -/
def jsProp (key : String) (value : Option Json) : List (String × Json) :=
  match value with
  | some v => [(key, v)]
  | none => []

/-! The file input handler, shared verbatim by both App variants. -/

/-- handleFileChange: stores the selected file only when one was
selected and its MIME type is text/csv; otherwise the stored file is
left unchanged. -/
def handleFileChange (stored selected : Option BrowserFile) : Option BrowserFile :=
  match selected with
  | some f => if f.type == "text/csv" then some f else stored
  | none => stored

/-! The ErrorDisplay component and the result section JSX shared by both
App variants. -/

/-- What the ErrorDisplay component renders. -/
structure ErrorDisplayView where
  message : String
  hasRetryButton : Bool
deriving Repr, DecidableEq

/-- ErrorDisplay renders the message and, when an onRetry callback is
provided, a Try Again button. -/
def errorDisplayOf (message : String) (onRetryProvided : Bool) : ErrorDisplayView :=
  { message := message, hasRetryButton := onRetryProvided }

/-- Truthiness of the error state (a string or null). -/
def errorTruthy : Option String → Bool
  | none => false
  | some m => !(m == "")

/-- What the result section of the page shows: the three JSX guards
loading, error and results-and-not-loading-and-not-error. -/
structure ResultsSection where
  spinner : Bool
  errorBox : Option ErrorDisplayView
  resultsView : Option Json

/-- The result section of the App render: a spinner while loading, an
ErrorDisplay (with retry) when the error state is truthy, and the
AnalysisResults view when results are truthy and neither loading nor an
error is active. -/
def renderResultsSection (loading : Bool) (error : Option String) (results : Option Json) :
    ResultsSection :=
  { spinner := loading,
    errorBox := match error with
      | some m => if m == "" then none else some (errorDisplayOf m true)
      | none => none,
    resultsView := if truthyOpt results && !loading && !(errorTruthy error) then results else none }

/-! App variant A: the component with the Use Dynamic Analysis checkbox,
posting to analyze-dynamic or analyze. -/

/-- The component-local state of App variant A. -/
structure StateA where
  useNewEndpoint : Bool
  file : Option BrowserFile
  loading : Bool
  results : Option Json
  error : Option String

/-- The initial state of App variant A (useState initial values). -/
def initialStateA : StateA :=
  { useNewEndpoint := true, file := none, loading := false, results := none, error := none }

/-- The named form controls of variant A at submission time. -/
structure FormFieldsA where
  value_proposition : String
  business_model : String
  target_metrics : String
  revenue_drivers : String

/-- new FormData(form) for variant A (the four named controls; the file
input and the checkbox carry no name attribute) followed by the manual
append of the stored file when one is present. -/
def formDataA (form : FormFieldsA) (file : Option BrowserFile) : List (String × FormValue) :=
  [("value_proposition", .text form.value_proposition),
   ("business_model", .text form.business_model),
   ("target_metrics", .text form.target_metrics),
   ("revenue_drivers", .text form.revenue_drivers)] ++
  (match file with
   | some f => [("file", .file f)]
   | none => [])

/-- handleSubmit of variant A: sets loading, clears the error, issues
one POST to apiUrl/analyze-dynamic or apiUrl/analyze according to the
checkbox, and processes the outcome inside try/catch/finally.  A non-ok
response or a falsy success field throws; member access on a null value
throws a TypeError (engine wording, quotes omitted); the catch stores
the message of the thrown Error; finally clears loading.  On success the
dynamic branch stores an object holding data.data.recommendations and
data.data.analysis (as metrics), the original branch stores data.data
itself. -/
def handleSubmitA (apiUrl : String) (form : FormFieldsA) (s : StateA)
    (outcome : FetchOutcome) : List Request × StateA :=
  let s0 : StateA := { s with loading := true, error := none }
  let endpoint := if s.useNewEndpoint then "analyze-dynamic" else "analyze"
  let request : Request :=
    { url := apiUrl ++ "/" ++ endpoint, method := "POST", body := formDataA form s.file }
  let sUpd : StateA :=
    match outcome with
    | .networkError message => { s0 with error := some message }
    | .jsonError message => { s0 with error := some message }
    | .httpError _ statusText _ =>
        { s0 with error := some ("Analysis failed: " ++ statusText) }
    | .ok .null =>
        { s0 with error := some "Cannot read properties of null (reading success)" }
    | .ok data =>
        if !(truthyOpt (jsMember data "success")) then
          { s0 with error := some (payloadErrorMessage data) }
        else if s.useNewEndpoint then
          match jsMember data "data" with
          | none =>
              { s0 with error := some "Cannot read properties of undefined (reading recommendations)" }
          | some .null =>
              { s0 with error := some "Cannot read properties of null (reading recommendations)" }
          | some dd =>
              { s0 with results := some (Json.obj
                  (jsProp "recommendations" (jsMember dd "recommendations") ++
                   jsProp "metrics" (jsMember dd "analysis"))) }
        else
          { s0 with results := jsMember data "data" }
  ([request], { sUpd with loading := false })

/-- The retry callback of variant A: onRetry is setError(null); it
issues no request and changes nothing but the error state. -/
def retryA (s : StateA) : List Request × StateA :=
  ([], { s with error := none })

/-- The submit button of variant A is disabled while loading or while no
file is stored. -/
def submitDisabledA (s : StateA) : Bool :=
  s.loading || s.file.isNone

/-- The result section of variant A. -/
def renderAppA (s : StateA) : ResultsSection :=
  renderResultsSection s.loading s.error s.results

/-! App variant B: the component with the goal/questions mode, posting
only to analyze-dynamic. -/

/-- The analysis mode state of variant B. -/
inductive AnalysisMode where
  | goal
  | questions
deriving Repr, DecidableEq

/-- The component-local state of App variant B (the parts the submit
path reads). -/
structure StateB where
  file : Option BrowserFile
  loading : Bool
  results : Option Json
  error : Option String
  questions : List String
  analysisMode : AnalysisMode

/-- The initial state of App variant B (useState initial values). -/
def initialStateB : StateB :=
  { file := none, loading := false, results := none, error := none,
    questions := [], analysisMode := .goal }

/-- The named form controls of variant B at submission time.  The
business_goal textarea exists in the DOM only in goal mode. -/
structure FormFieldsB where
  value_proposition : String
  business_model : String
  business_goal : String

/-- new FormData(form) for variant B (the named controls present in the
DOM: the two textareas always, business_goal only in goal mode; the
question inputs and the file input carry no name attribute), followed by
the manual appends of the stored file and, in questions mode with a
non-empty question list, of the JSON-encoded questions. -/
def formDataB (form : FormFieldsB) (mode : AnalysisMode) (questions : List String)
    (file : Option BrowserFile) : List (String × FormValue) :=
  [("value_proposition", .text form.value_proposition),
   ("business_model", .text form.business_model)] ++
  (if mode = AnalysisMode.goal then [("business_goal", .text form.business_goal)] else []) ++
  (match file with
   | some f => [("file", .file f)]
   | none => []) ++
  (if mode = AnalysisMode.questions ∧ 0 < questions.length then
    [("questions", .text (jsonStringifyStrings questions))]
  else [])

/-- handleSubmit of variant B: sets loading, clears the error, issues
one POST to apiUrl/analyze-dynamic, and processes the outcome inside
try/catch/finally exactly as variant A does, except that the success
branch always stores data.data itself. -/
def handleSubmitB (apiUrl : String) (form : FormFieldsB) (s : StateB)
    (outcome : FetchOutcome) : List Request × StateB :=
  let s0 : StateB := { s with loading := true, error := none }
  let request : Request :=
    { url := apiUrl ++ "/analyze-dynamic", method := "POST",
      body := formDataB form s.analysisMode s.questions s.file }
  let sUpd : StateB :=
    match outcome with
    | .networkError message => { s0 with error := some message }
    | .jsonError message => { s0 with error := some message }
    | .httpError _ statusText _ =>
        { s0 with error := some ("Analysis failed: " ++ statusText) }
    | .ok .null =>
        { s0 with error := some "Cannot read properties of null (reading success)" }
    | .ok data =>
        if !(truthyOpt (jsMember data "success")) then
          { s0 with error := some (payloadErrorMessage data) }
        else
          { s0 with results := jsMember data "data" }
  ([request], { sUpd with loading := false })

/-- The retry callback of variant B: onRetry is setError(null). -/
def retryB (s : StateB) : List Request × StateB :=
  ([], { s with error := none })

/-- The submit button of variant B is disabled while loading or while no
file is stored. -/
def submitDisabledB (s : StateB) : Bool :=
  s.loading || s.file.isNone

/-- The result section of variant B. -/
def renderAppB (s : StateB) : ResultsSection :=
  renderResultsSection s.loading s.error s.results

/-! The AnalysisResults renderer (the variant handling answers as well
as recommendations). -/

/-- What one answer card renders: the question and answer values, a
confidence bar when the confidence field is truthy, and a supporting
data block when the supporting_data field is truthy. -/
structure AnswerCard where
  question : Option Json
  answer : Option Json
  confidenceBar : Option Json
  supportingData : Option Json

/-- The answer card JSX for one element of results.answers. -/
def answerCard (a : Json) : AnswerCard :=
  { question := jsMember a "question",
    answer := jsMember a "answer",
    confidenceBar := match jsMember a "confidence" with
      | some c => if c.truthy then some c else none
      | none => none,
    supportingData := match jsMember a "supporting_data" with
      | some d => if d.truthy then some d else none
      | none => none }

/-- The item area of AnalysisResults: answer cards, recommendation
cards, nothing (recommendations absent under optional chaining), or a
runtime render error (calling map on a non-array). -/
inductive ItemsView where
  | answersView (cards : List AnswerCard)
  | recsView (recs : List Json)
  | noItems
  | renderError

/-- The answers-or-recommendations area of AnalysisResults: when
results.answers is truthy its elements are rendered as answer cards,
otherwise results.recommendations is rendered (optional chaining, so an
absent or null value renders nothing) as recommendation cards. -/
def analysisResultsItems (results : Json) : ItemsView :=
  let ans := jsMember results "answers"
  if truthyOpt ans then
    match ans with
    | some (.arr elems) => .answersView (elems.map answerCard)
    | _ => .renderError
  else
    match jsMember results "recommendations" with
    | none => .noItems
    | some .null => .noItems
    | some (.arr recs) => .recsView recs
    | some _ => .renderError

/-- The metrics area of AnalysisResults: MetricsDisplay is rendered with
results.metrics when that value is truthy and has at least one own
key. -/
def analysisResultsMetrics (results : Json) : Option Json :=
  match jsMember results "metrics" with
  | some m => if m.truthy && 0 < (jsObjectKeys m).length then some m else none
  | none => none

/-! The QuestionsInput component. -/

/-- The example questions offered by QuestionsInput. -/
def QUESTION_EXAMPLES : List String :=
  ["What is driving the highest revenue growth?",
   "Which features have the lowest engagement rates?",
   "What patterns exist in user behavior across different segments?",
   "Where are the biggest opportunities for optimization?",
   "What are the key factors affecting conversion rates?"]

/-- The component-local state of QuestionsInput. -/
structure QuestionsState where
  questions : List String
  showExamples : Bool
deriving Repr, DecidableEq

/-- The initial state of QuestionsInput: one empty question, examples
hidden. -/
def initialQuestionsState : QuestionsState :=
  { questions := [""], showExamples := false }

/-- The filter applied before every onChange report: only questions
whose trim is truthy (non-empty) are kept. -/
def nonEmptyQuestions (qs : List String) : List String :=
  qs.filter (fun q => !(jsTrim q == ""))

/-- handleQuestionChange: writes the value at the index (call sites pass
indices of rendered inputs, hence in range) and reports the filtered
list through onChange. -/
def handleQuestionChange (s : QuestionsState) (index : Nat) (value : String) :
    QuestionsState × List String :=
  let newQuestions := s.questions.set index value
  ({ s with questions := newQuestions }, nonEmptyQuestions newQuestions)

/-- addQuestion: appends one empty question; onChange is not called. -/
def addQuestion (s : QuestionsState) : QuestionsState :=
  { s with questions := s.questions ++ [""] }

/-- removeQuestion: drops the entry at the index, resets to one empty
question when the list became empty, and reports the filtered dropped
list through onChange. -/
def removeQuestion (s : QuestionsState) (index : Nat) : QuestionsState × List String :=
  let newQuestions := s.questions.eraseIdx index
  ({ s with questions := if newQuestions.isEmpty then [""] else newQuestions },
   nonEmptyQuestions newQuestions)

/-- handleExampleClick: writes the example into the first blank question
when one exists (reporting through handleQuestionChange), otherwise
appends it and reports the filtered current list plus the example; the
examples dropdown closes either way. -/
def handleExampleClick (s : QuestionsState) (ex : String) :
    QuestionsState × Option (List String) :=
  match s.questions.findIdx? (fun q => jsTrim q == "") with
  | some emptyIndex =>
      let r := handleQuestionChange s emptyIndex ex
      ({ r.1 with showExamples := false }, some r.2)
  | none =>
      ({ questions := s.questions ++ [ex], showExamples := false },
       some (nonEmptyQuestions s.questions ++ [ex]))

/-! Statement-level classifiers for the submit outcomes. -/

/-- The outcomes on which a submission ends in the catch block: a failed
fetch, an unparseable body, a non-ok response, or an ok response whose
success field is falsy (a null body also throws at the success read). -/
def isErrorOutcome : FetchOutcome → Bool
  | .networkError _ => true
  | .jsonError _ => true
  | .httpError _ _ _ => true
  | .ok data => !(truthyOpt (jsMember data "success"))

/-- The message of the Error the catch block receives on each failing
outcome. -/
def outcomeErrorMessage : FetchOutcome → String
  | .networkError m => m
  | .jsonError m => m
  | .httpError _ statusText _ => "Analysis failed: " ++ statusText
  | .ok .null => "Cannot read properties of null (reading success)"
  | .ok data => payloadErrorMessage data

/-! Concrete sample values used by the witness theorems. -/

/-- A sample CSV file. -/
def sampleFile : BrowserFile := { name := "data.csv", type := "text/csv" }

/-- Sample form control values for variant A. -/
def sampleFormA : FormFieldsA :=
  { value_proposition := "vp", business_model := "bm",
    target_metrics := "tm", revenue_drivers := "rd" }

/-- Sample form control values for variant B. -/
def sampleFormB : FormFieldsB :=
  { value_proposition := "vp", business_model := "bm", business_goal := "goal" }

/-- A sample variant A state with a stored file and previous results. -/
def sampleStateA : StateA :=
  { useNewEndpoint := true, file := some sampleFile, loading := false,
    results := some (Json.str "prevA"), error := none }

/-- A sample variant B state in questions mode with a stored file and
previous results. -/
def sampleStateB : StateB :=
  { file := some sampleFile, loading := false, results := some (Json.str "prevB"),
    error := none, questions := ["q one"], analysisMode := .questions }

/-- A sample non-success payload carrying an error text. -/
def sampleFailPayload : Json :=
  Json.obj [("success", Json.bool false), ("error", Json.str "boom")]

/-- The request a variant A submission issues from the sample state. -/
def sampleRequestA : Request :=
  { url := "http://api/analyze-dynamic", method := "POST",
    body := formDataA sampleFormA sampleStateA.file }

/-- A sample data.data value carrying answers and an analysis object but
no metrics key. -/
def sampleAnswersData : Json :=
  Json.obj [("answers", Json.arr [Json.obj [("question", Json.str "q"),
      ("answer", Json.str "a")]]),
    ("analysis", Json.obj [("total_views", Json.str "100")])]

/-- A sample successful payload wrapping sampleAnswersData. -/
def sampleSuccessPayload : Json :=
  Json.obj [("success", Json.bool true), ("data", sampleAnswersData)]

/-! Helper lemmas. -/

/-- Every member of a filtered question list has non-blank content. -/
theorem mem_nonEmptyQuestions_trim {q : String} {qs : List String}
    (h : q ∈ nonEmptyQuestions qs) : jsTrim q ≠ "" := by
  simp [nonEmptyQuestions, List.mem_filter] at h
  exact h.2

/-- Every example question offered by QuestionsInput is non-blank. -/
theorem question_examples_nonblank : ∀ e ∈ QUESTION_EXAMPLES, jsTrim e ≠ "" := by decide

/-- On every failing outcome, both submit handlers store the thrown
message in the error state, clear loading, and leave results
untouched. -/
theorem handleSubmitA_error_case (apiUrl : String) (form : FormFieldsA) (s : StateA)
    (outcome : FetchOutcome) (herr : isErrorOutcome outcome = true) :
    (handleSubmitA apiUrl form s outcome).2.error = some (outcomeErrorMessage outcome) ∧
    (handleSubmitA apiUrl form s outcome).2.loading = false ∧
    (handleSubmitA apiUrl form s outcome).2.results = s.results := by
  cases outcome with
  | networkError m => exact ⟨rfl, rfl, rfl⟩
  | jsonError m => exact ⟨rfl, rfl, rfl⟩
  | httpError st stx b => exact ⟨rfl, rfl, rfl⟩
  | ok data =>
      cases data with
      | null => exact ⟨rfl, rfl, rfl⟩
      | bool b => exact ⟨rfl, rfl, rfl⟩
      | num q => exact ⟨rfl, rfl, rfl⟩
      | str s => exact ⟨rfl, rfl, rfl⟩
      | arr elems => exact ⟨rfl, rfl, rfl⟩
      | obj fields =>
          simp only [isErrorOutcome] at herr
          simp [handleSubmitA, outcomeErrorMessage, herr]

/-- The variant B analogue of the error-path lemma. -/
theorem handleSubmitB_error_case (apiUrl : String) (form : FormFieldsB) (s : StateB)
    (outcome : FetchOutcome) (herr : isErrorOutcome outcome = true) :
    (handleSubmitB apiUrl form s outcome).2.error = some (outcomeErrorMessage outcome) ∧
    (handleSubmitB apiUrl form s outcome).2.loading = false ∧
    (handleSubmitB apiUrl form s outcome).2.results = s.results := by
  cases outcome with
  | networkError m => exact ⟨rfl, rfl, rfl⟩
  | jsonError m => exact ⟨rfl, rfl, rfl⟩
  | httpError st stx b => exact ⟨rfl, rfl, rfl⟩
  | ok data =>
      cases data with
      | null => exact ⟨rfl, rfl, rfl⟩
      | bool b => exact ⟨rfl, rfl, rfl⟩
      | num q => exact ⟨rfl, rfl, rfl⟩
      | str s => exact ⟨rfl, rfl, rfl⟩
      | arr elems => exact ⟨rfl, rfl, rfl⟩
      | obj fields =>
          simp only [isErrorOutcome] at herr
          simp [handleSubmitB, outcomeErrorMessage, herr]

/-! Claim C9. -/

/-- C9: every question list QuestionsInput reports through its onChange
callback contains only strings with non-whitespace content; blank
entries are filtered out before the callback runs, for every edit,
removal and example insertion. -/
theorem c9_reported_questions_nonblank (s : QuestionsState) (index : Nat) (value ex : String)
    (hex : ex ∈ QUESTION_EXAMPLES) :
    (∀ q ∈ (handleQuestionChange s index value).2, jsTrim q ≠ "") ∧
    (∀ q ∈ (removeQuestion s index).2, jsTrim q ≠ "") ∧
    (∀ l, (handleExampleClick s ex).2 = some l → ∀ q ∈ l, jsTrim q ≠ "") := by
  refine ⟨fun q hq => mem_nonEmptyQuestions_trim hq,
    fun q hq => mem_nonEmptyQuestions_trim hq, ?_⟩
  intro l hl q hq
  unfold handleExampleClick at hl
  cases hfind : s.questions.findIdx? (fun q => jsTrim q == "") with
  | some i =>
      rw [hfind] at hl
      simp only [Option.some.injEq] at hl
      subst hl
      exact mem_nonEmptyQuestions_trim hq
  | none =>
      rw [hfind] at hl
      simp only [Option.some.injEq] at hl
      subst hl
      rcases List.mem_append.mp hq with h | h
      · exact mem_nonEmptyQuestions_trim h
      · rw [List.mem_singleton.mp h]
        exact question_examples_nonblank ex hex

/-- Witness for C9 at concrete inputs. -/
theorem c9_reported_questions_nonblank_witness :
    (∀ q ∈ (handleQuestionChange ⟨["a", " "], false⟩ 0 "hello").2, jsTrim q ≠ "") ∧
    (∀ q ∈ (removeQuestion ⟨["a", " "], false⟩ 0).2, jsTrim q ≠ "") ∧
    (∀ l, (handleExampleClick ⟨["a", " "], false⟩
        "What is driving the highest revenue growth?").2 = some l →
      ∀ q ∈ l, jsTrim q ≠ "") :=
  c9_reported_questions_nonblank ⟨["a", " "], false⟩ 0 "hello"
    "What is driving the highest revenue growth?" (by decide)

/-! Claim C10. -/

/-- C10: the internal question list of QuestionsInput is never empty:
it starts as one empty entry, adding appends an entry, removing the last
remaining entry resets to a single empty entry, and every handler
preserves non-emptiness. -/
theorem c10_questions_never_empty (s : QuestionsState) (index : Nat) (value ex q0 : String)
    (hne : s.questions ≠ []) :
    initialQuestionsState.questions = [""] ∧
    (addQuestion s).questions = s.questions ++ [""] ∧
    (s.questions = [q0] → ((removeQuestion s 0).1).questions = [""]) ∧
    (handleQuestionChange s index value).1.questions ≠ [] ∧
    (addQuestion s).questions ≠ [] ∧
    ((removeQuestion s index).1).questions ≠ [] ∧
    ((handleExampleClick s ex).1).questions ≠ [] := by
  refine ⟨rfl, rfl, ?_, ?_, ?_, ?_, ?_⟩
  · intro h
    simp [removeQuestion, h]
  · simp only [handleQuestionChange]
    intro h
    exact hne ((List.set_eq_nil_iff _ _).mp h)
  · simp [addQuestion]
  · simp only [removeQuestion]
    split
    · simp
    · next hemp => exact fun h => hemp (List.isEmpty_iff.mpr h)
  · unfold handleExampleClick
    cases hfind : s.questions.findIdx? (fun q => jsTrim q == "") with
    | some i =>
        simp only [handleQuestionChange]
        intro h
        exact hne ((List.set_eq_nil_iff _ _).mp h)
    | none => simp

/-- Witness for C10 at concrete inputs. -/
theorem c10_questions_never_empty_witness :
    initialQuestionsState.questions = [""] ∧
    (addQuestion ⟨["x"], false⟩).questions = ["x"] ++ [""] ∧
    ((⟨["x"], false⟩ : QuestionsState).questions = ["x"] →
      ((removeQuestion ⟨["x"], false⟩ 0).1).questions = [""]) ∧
    (handleQuestionChange ⟨["x"], false⟩ 0 "y").1.questions ≠ [] ∧
    (addQuestion ⟨["x"], false⟩).questions ≠ [] ∧
    ((removeQuestion ⟨["x"], false⟩ 0).1).questions ≠ [] ∧
    ((handleExampleClick ⟨["x"], false⟩ "q").1).questions ≠ [] :=
  c10_questions_never_empty ⟨["x"], false⟩ 0 "y" "q" "x" (by decide)

/-! Claim C7. -/

/-- C7: the file selection handler accepts a selected file only when its
MIME type is text/csv (any other selection leaves the stored file
unchanged), and the submit button is disabled exactly while a request is
loading or no file is stored. -/
theorem c7_csv_gate_and_disabled_button (stored selected : Option BrowserFile)
    (sA : StateA) (sB : StateB) :
    (selected = none → handleFileChange stored selected = stored) ∧
    (∀ f, selected = some f → f.type ≠ "text/csv" → handleFileChange stored selected = stored) ∧
    (∀ f, selected = some f → f.type = "text/csv" → handleFileChange stored selected = some f) ∧
    (submitDisabledA sA = true ↔ (sA.loading = true ∨ sA.file = none)) ∧
    (submitDisabledB sB = true ↔ (sB.loading = true ∨ sB.file = none)) := by
  refine ⟨?_, ?_, ?_, ?_, ?_⟩
  · intro h; subst h; rfl
  · intro f h hcsv; subst h; simp [handleFileChange, hcsv]
  · intro f h hcsv; subst h; simp [handleFileChange, hcsv]
  · simp [submitDisabledA, Option.isNone_iff_eq_none]
  · simp [submitDisabledB, Option.isNone_iff_eq_none]

/-- Witness for C7 at concrete inputs. -/
theorem c7_csv_gate_and_disabled_button_witness :
    ((some (⟨"notes.txt", "text/plain"⟩ : BrowserFile)) = none →
      handleFileChange (some ⟨"old.csv", "text/csv"⟩) (some ⟨"notes.txt", "text/plain"⟩) =
        some ⟨"old.csv", "text/csv"⟩) ∧
    (∀ f, (some (⟨"notes.txt", "text/plain"⟩ : BrowserFile)) = some f → f.type ≠ "text/csv" →
      handleFileChange (some ⟨"old.csv", "text/csv"⟩) (some ⟨"notes.txt", "text/plain"⟩) =
        some ⟨"old.csv", "text/csv"⟩) ∧
    (∀ f, (some (⟨"notes.txt", "text/plain"⟩ : BrowserFile)) = some f → f.type = "text/csv" →
      handleFileChange (some ⟨"old.csv", "text/csv"⟩) (some ⟨"notes.txt", "text/plain"⟩) =
        some f) ∧
    (submitDisabledA ⟨true, none, false, none, none⟩ = true ↔
      ((⟨true, none, false, none, none⟩ : StateA).loading = true ∨
       (⟨true, none, false, none, none⟩ : StateA).file = none)) ∧
    (submitDisabledB ⟨none, false, none, none, [], .goal⟩ = true ↔
      ((⟨none, false, none, none, [], .goal⟩ : StateB).loading = true ∨
       (⟨none, false, none, none, [], .goal⟩ : StateB).file = none)) :=
  c7_csv_gate_and_disabled_button (some ⟨"old.csv", "text/csv"⟩)
    (some ⟨"notes.txt", "text/plain"⟩) ⟨true, none, false, none, none⟩
    ⟨none, false, none, none, [], .goal⟩

/-! Claim C6. -/

/-- C6: each submission issues exactly one HTTP request regardless of
the outcome (so no failure triggers a re-request), and the retry button
issues no request and clears only the error state. -/
theorem c6_one_request_and_inert_retry (apiUrl : String) (formA : FormFieldsA)
    (formB : FormFieldsB) (sA : StateA) (sB : StateB) (outA outB : FetchOutcome) :
    (handleSubmitA apiUrl formA sA outA).1.length = 1 ∧
    (handleSubmitB apiUrl formB sB outB).1.length = 1 ∧
    (retryA sA).1 = [] ∧
    (retryA sA).2.error = none ∧
    (retryA sA).2.results = sA.results ∧
    (retryA sA).2.loading = sA.loading ∧
    (retryA sA).2.file = sA.file ∧
    (retryA sA).2.useNewEndpoint = sA.useNewEndpoint ∧
    (retryB sB).1 = [] ∧
    (retryB sB).2.error = none ∧
    (retryB sB).2.results = sB.results ∧
    (retryB sB).2.loading = sB.loading ∧
    (retryB sB).2.file = sB.file ∧
    (retryB sB).2.questions = sB.questions ∧
    (retryB sB).2.analysisMode = sB.analysisMode :=
  ⟨rfl, rfl, rfl, rfl, rfl, rfl, rfl, rfl, rfl, rfl, rfl, rfl, rfl, rfl, rfl⟩

/-! Claim C8. -/

/-- C8: a submission that ends in an error (failed fetch, unparseable or
non-ok response, or non-success payload) leaves the results state
unchanged in both App variants. -/
theorem c8_error_preserves_results (apiUrl : String) (formA : FormFieldsA)
    (formB : FormFieldsB) (sA : StateA) (sB : StateB) (outcome : FetchOutcome)
    (herr : isErrorOutcome outcome = true) :
    (handleSubmitA apiUrl formA sA outcome).2.results = sA.results ∧
    (handleSubmitB apiUrl formB sB outcome).2.results = sB.results :=
  ⟨(handleSubmitA_error_case apiUrl formA sA outcome herr).2.2,
   (handleSubmitB_error_case apiUrl formB sB outcome herr).2.2⟩

/-- Witness for C8 at concrete inputs. -/
theorem c8_error_preserves_results_witness :
    (handleSubmitA "http://api" sampleFormA sampleStateA
      (.httpError 500 "Internal Server Error" "")).2.results = sampleStateA.results ∧
    (handleSubmitB "http://api" sampleFormB sampleStateB
      (.httpError 500 "Internal Server Error" "")).2.results = sampleStateB.results :=
  c8_error_preserves_results "http://api" sampleFormA sampleFormB sampleStateA sampleStateB
    (.httpError 500 "Internal Server Error" "") rfl

/-! Claim C2. -/

/-- C2: every submission issues a POST whose URL is apiUrl/analyze-dynamic
when dynamic analysis is selected and apiUrl/analyze otherwise; no
request to any other URL is ever issued by either variant. -/
theorem c2_post_endpoints (apiUrl : String) (formA : FormFieldsA) (formB : FormFieldsB)
    (sA : StateA) (sB : StateB) (outA outB : FetchOutcome) :
    (∀ r ∈ (handleSubmitA apiUrl formA sA outA).1,
      r.method = "POST" ∧
      (r.url = apiUrl ++ "/analyze-dynamic" ∨ r.url = apiUrl ++ "/analyze") ∧
      (sA.useNewEndpoint = true → r.url = apiUrl ++ "/analyze-dynamic") ∧
      (sA.useNewEndpoint = false → r.url = apiUrl ++ "/analyze")) ∧
    (∀ r ∈ (handleSubmitB apiUrl formB sB outB).1,
      r.method = "POST" ∧ r.url = apiUrl ++ "/analyze-dynamic") := by
  constructor
  · intro r hr
    simp only [handleSubmitA, List.mem_singleton] at hr
    subst hr
    cases h : sA.useNewEndpoint <;> simp [h, String.append_assoc]
  · intro r hr
    simp only [handleSubmitB, List.mem_singleton] at hr
    subst hr
    exact ⟨rfl, rfl⟩


/-- Witness for C2: the request of a concrete variant A submission. -/
theorem c2_post_endpoints_witness :
    sampleRequestA.method = "POST" ∧
    (sampleRequestA.url = "http://api" ++ "/analyze-dynamic" ∨
     sampleRequestA.url = "http://api" ++ "/analyze") ∧
    (sampleStateA.useNewEndpoint = true →
      sampleRequestA.url = "http://api" ++ "/analyze-dynamic") ∧
    (sampleStateA.useNewEndpoint = false →
      sampleRequestA.url = "http://api" ++ "/analyze") :=
  (c2_post_endpoints "http://api" sampleFormA sampleFormB sampleStateA sampleStateB
      (.networkError "failed to fetch") (.networkError "failed to fetch")).1
    sampleRequestA (by decide)

/-! Claim C4. -/

/-- C4 (amended): a submission whose fetch fails, whose response is not
ok, or whose payload has a falsy success field sets the error state to
the thrown message (the payload error text when present and truthy, the
generic fallback otherwise) and clears loading; whenever that message is
non-empty the page shows the error display with a retry button and no
results view.  A truthy payload error value that stringifies to the
empty string (such as an empty array) leaves the error box hidden and
the previous results visible: see the counterexample. -/
theorem c4_error_display (apiUrl : String) (formA : FormFieldsA)
    (formB : FormFieldsB) (sA : StateA) (sB : StateB) (outcome : FetchOutcome)
    (herr : isErrorOutcome outcome = true)
    (hne : outcomeErrorMessage outcome ≠ "") :
    (handleSubmitA apiUrl formA sA outcome).2.error = some (outcomeErrorMessage outcome) ∧
    (handleSubmitA apiUrl formA sA outcome).2.loading = false ∧
    (renderAppA (handleSubmitA apiUrl formA sA outcome).2).spinner = false ∧
    (renderAppA (handleSubmitA apiUrl formA sA outcome).2).errorBox =
      some (errorDisplayOf (outcomeErrorMessage outcome) true) ∧
    (renderAppA (handleSubmitA apiUrl formA sA outcome).2).resultsView = none ∧
    (handleSubmitB apiUrl formB sB outcome).2.error = some (outcomeErrorMessage outcome) ∧
    (handleSubmitB apiUrl formB sB outcome).2.loading = false ∧
    (renderAppB (handleSubmitB apiUrl formB sB outcome).2).spinner = false ∧
    (renderAppB (handleSubmitB apiUrl formB sB outcome).2).errorBox =
      some (errorDisplayOf (outcomeErrorMessage outcome) true) ∧
    (renderAppB (handleSubmitB apiUrl formB sB outcome).2).resultsView = none ∧
    (∀ data e, outcome = .ok data → jsMember data "error" = some (.str e) → e ≠ "" →
      outcomeErrorMessage outcome = e) ∧
    (∀ data, outcome = .ok data → data ≠ .null → truthyOpt (jsMember data "error") = false →
      outcomeErrorMessage outcome = "Analysis failed") := by
  obtain ⟨hAe, hAl, -⟩ := handleSubmitA_error_case apiUrl formA sA outcome herr
  obtain ⟨hBe, hBl, -⟩ := handleSubmitB_error_case apiUrl formB sB outcome herr
  have hbeq : (outcomeErrorMessage outcome == "") = false := by
    simpa using hne
  refine ⟨hAe, hAl, ?_, ?_, ?_, hBe, hBl, ?_, ?_, ?_, ?_, ?_⟩
  · simp [renderAppA, renderResultsSection, hAl]
  · simp [renderAppA, renderResultsSection, hAe, hbeq]
  · simp [renderAppA, renderResultsSection, hAe, hbeq, errorTruthy]
  · simp [renderAppB, renderResultsSection, hBl]
  · simp [renderAppB, renderResultsSection, hBe, hbeq]
  · simp [renderAppB, renderResultsSection, hBe, hbeq, errorTruthy]
  · intro data e hout hjs hene
    subst hout
    cases data with
    | obj fields =>
        have het : (Json.str e).truthy = true := by
          simp [Json.truthy, hene]
        simp [outcomeErrorMessage, payloadErrorMessage, hjs, het, jsToString]
    | null => simp [jsMember] at hjs
    | bool b => simp [jsMember] at hjs
    | num q => simp [jsMember] at hjs
    | str s => simp [jsMember] at hjs
    | arr elems => simp [jsMember] at hjs
  · intro data hout hnn htr
    subst hout
    cases data with
    | null => exact absurd rfl hnn
    | obj fields =>
        simp only [outcomeErrorMessage, payloadErrorMessage]
        cases hjs : jsMember (Json.obj fields) "error" with
        | none => simp
        | some v =>
            rw [hjs] at htr
            simp only [truthyOpt] at htr
            simp [htr]
    | bool b => simp [outcomeErrorMessage, payloadErrorMessage, jsMember]
    | num q => simp [outcomeErrorMessage, payloadErrorMessage, jsMember]
    | str s => simp [outcomeErrorMessage, payloadErrorMessage, jsMember]
    | arr elems => simp [outcomeErrorMessage, payloadErrorMessage, jsMember]

/-- Witness for C4: a concrete non-success payload with an error text. -/
theorem c4_error_display_witness :
    (handleSubmitA "http://api" sampleFormA sampleStateA (.ok sampleFailPayload)).2.error =
      some (outcomeErrorMessage (.ok sampleFailPayload)) ∧
    (handleSubmitA "http://api" sampleFormA sampleStateA (.ok sampleFailPayload)).2.loading =
      false ∧
    (renderAppA (handleSubmitA "http://api" sampleFormA sampleStateA
      (.ok sampleFailPayload)).2).spinner = false ∧
    (renderAppA (handleSubmitA "http://api" sampleFormA sampleStateA
      (.ok sampleFailPayload)).2).errorBox =
        some (errorDisplayOf (outcomeErrorMessage (.ok sampleFailPayload)) true) ∧
    (renderAppA (handleSubmitA "http://api" sampleFormA sampleStateA
      (.ok sampleFailPayload)).2).resultsView = none ∧
    (handleSubmitB "http://api" sampleFormB sampleStateB (.ok sampleFailPayload)).2.error =
      some (outcomeErrorMessage (.ok sampleFailPayload)) ∧
    (handleSubmitB "http://api" sampleFormB sampleStateB (.ok sampleFailPayload)).2.loading =
      false ∧
    (renderAppB (handleSubmitB "http://api" sampleFormB sampleStateB
      (.ok sampleFailPayload)).2).spinner = false ∧
    (renderAppB (handleSubmitB "http://api" sampleFormB sampleStateB
      (.ok sampleFailPayload)).2).errorBox =
        some (errorDisplayOf (outcomeErrorMessage (.ok sampleFailPayload)) true) ∧
    (renderAppB (handleSubmitB "http://api" sampleFormB sampleStateB
      (.ok sampleFailPayload)).2).resultsView = none ∧
    (∀ data e, (FetchOutcome.ok sampleFailPayload) = .ok data →
      jsMember data "error" = some (.str e) → e ≠ "" →
      outcomeErrorMessage (.ok sampleFailPayload) = e) ∧
    (∀ data, (FetchOutcome.ok sampleFailPayload) = .ok data → data ≠ .null →
      truthyOpt (jsMember data "error") = false →
      outcomeErrorMessage (.ok sampleFailPayload) = "Analysis failed") :=
  c4_error_display "http://api" sampleFormA sampleFormB sampleStateA sampleStateB
    (.ok sampleFailPayload) rfl (by decide)

/-- Counterexample to C4 as stated: on the non-success payload whose
error field is an empty array, new Error([]) has the empty message, so
the error state holds an empty (falsy) string: no error display and no
retry button are rendered, and the previous results are displayed again,
in both variants. -/
theorem c4_counterexample :
    isErrorOutcome
      (.ok (Json.obj [("success", Json.bool false), ("error", Json.arr [])])) = true ∧
    (handleSubmitB "http://api" sampleFormB sampleStateB
      (.ok (Json.obj [("success", Json.bool false), ("error", Json.arr [])]))).2.error =
        some "" ∧
    (renderAppB (handleSubmitB "http://api" sampleFormB sampleStateB
      (.ok (Json.obj [("success", Json.bool false), ("error", Json.arr [])]))).2).errorBox =
        none ∧
    (renderAppB (handleSubmitB "http://api" sampleFormB sampleStateB
      (.ok (Json.obj [("success", Json.bool false), ("error", Json.arr [])]))).2).resultsView =
        sampleStateB.results ∧
    (handleSubmitA "http://api" sampleFormA sampleStateA
      (.ok (Json.obj [("success", Json.bool false), ("error", Json.arr [])]))).2.error =
        some "" ∧
    (renderAppA (handleSubmitA "http://api" sampleFormA sampleStateA
      (.ok (Json.obj [("success", Json.bool false), ("error", Json.arr [])]))).2).errorBox =
        none ∧
    (renderAppA (handleSubmitA "http://api" sampleFormA sampleStateA
      (.ok (Json.obj [("success", Json.bool false), ("error", Json.arr [])]))).2).resultsView =
        sampleStateA.results :=
  ⟨rfl, rfl, rfl, rfl, rfl, rfl, rfl⟩

/-! Claim C1. -/

/-- C1 (amended): every checkbox-variant submission carries exactly
value_proposition, business_model, target_metrics and revenue_drivers,
plus file exactly when a file is stored, and never business_goal or
questions; every questions-variant submission carries value_proposition
and business_model, never target_metrics or revenue_drivers,
business_goal exactly in goal mode, questions exactly in questions mode
with a non-empty question list, and file exactly when a file is stored;
hence no submission carries all seven fields.  The questions field, when
present, holds the JSON-encoded array of the non-empty questions and the
file field holds the stored CSV file. -/
theorem c1_submission_fields (apiUrl : String) (formA : FormFieldsA) (formB : FormFieldsB)
    (sA : StateA) (sB : StateB) (outA outB : FetchOutcome)
    (hq : ∀ q ∈ sB.questions, jsTrim q ≠ "") :
    (∀ r ∈ (handleSubmitA apiUrl formA sA outA).1,
      (∀ k ∈ r.body.map Prod.fst,
        k ∈ ["value_proposition", "business_model", "target_metrics", "revenue_drivers",
             "business_goal", "questions", "file"]) ∧
      "value_proposition" ∈ r.body.map Prod.fst ∧
      "business_model" ∈ r.body.map Prod.fst ∧
      "target_metrics" ∈ r.body.map Prod.fst ∧
      "revenue_drivers" ∈ r.body.map Prod.fst ∧
      "business_goal" ∉ r.body.map Prod.fst ∧
      "questions" ∉ r.body.map Prod.fst ∧
      ("file" ∈ r.body.map Prod.fst ↔ sA.file.isSome = true) ∧
      ¬(∀ k ∈ ["value_proposition", "business_model", "target_metrics", "revenue_drivers",
             "business_goal", "questions", "file"], k ∈ r.body.map Prod.fst) ∧
      (∀ v, ("file", v) ∈ r.body → ∃ f, sA.file = some f ∧ v = FormValue.file f)) ∧
    (∀ r ∈ (handleSubmitB apiUrl formB sB outB).1,
      (∀ k ∈ r.body.map Prod.fst,
        k ∈ ["value_proposition", "business_model", "target_metrics", "revenue_drivers",
             "business_goal", "questions", "file"]) ∧
      "value_proposition" ∈ r.body.map Prod.fst ∧
      "business_model" ∈ r.body.map Prod.fst ∧
      "target_metrics" ∉ r.body.map Prod.fst ∧
      "revenue_drivers" ∉ r.body.map Prod.fst ∧
      ("business_goal" ∈ r.body.map Prod.fst ↔ sB.analysisMode = AnalysisMode.goal) ∧
      ("questions" ∈ r.body.map Prod.fst ↔
        (sB.analysisMode = AnalysisMode.questions ∧ 0 < sB.questions.length)) ∧
      ("file" ∈ r.body.map Prod.fst ↔ sB.file.isSome = true) ∧
      ¬(∀ k ∈ ["value_proposition", "business_model", "target_metrics", "revenue_drivers",
             "business_goal", "questions", "file"], k ∈ r.body.map Prod.fst) ∧
      (∀ v, ("questions", v) ∈ r.body →
        v = FormValue.text (jsonStringifyStrings (nonEmptyQuestions sB.questions)) ∧
        sB.analysisMode = AnalysisMode.questions ∧ sB.questions ≠ []) ∧
      (∀ v, ("file", v) ∈ r.body → ∃ f, sB.file = some f ∧ v = FormValue.file f)) := by
  have hfilter : nonEmptyQuestions sB.questions = sB.questions := by
    apply List.filter_eq_self.mpr
    intro a ha
    simpa using hq a ha
  constructor
  · intro r hr
    simp only [handleSubmitA, List.mem_singleton] at hr
    subst hr
    cases hfile : sA.file with
    | none =>
        refine ⟨?_, ?_, ?_, ?_, ?_, ?_, ?_, ?_, ?_, ?_⟩ <;>
          simp [formDataA, hfile]
    | some f =>
        refine ⟨?_, ?_, ?_, ?_, ?_, ?_, ?_, ?_, ?_, ?_⟩ <;>
          simp [formDataA, hfile]
  · intro r hr
    simp only [handleSubmitB, List.mem_singleton] at hr
    subst hr
    rcases hmode : sB.analysisMode with _ | _ <;>
      cases hfile : sB.file <;>
      by_cases hlen : 0 < sB.questions.length <;>
      refine ⟨?_, ?_, ?_, ?_, ?_, ?_, ?_, ?_, ?_, ?_, ?_⟩ <;>
        simp [formDataB, hmode, hfile, hlen, hfilter]
    all_goals exact List.length_pos.mp hlen

/-- Counterexample to C1 as stated: a concrete variant A submission
whose multipart body carries exactly five field names, so neither
business_goal nor questions is among them. -/
theorem c1_counterexample :
    ((handleSubmitA "http://api" sampleFormA sampleStateA (.ok sampleFailPayload)).1.map
      (fun r => r.body.map Prod.fst)) =
        [["value_proposition", "business_model", "target_metrics",
          "revenue_drivers", "file"]] ∧
    "business_goal" ∉ ["value_proposition", "business_model", "target_metrics",
      "revenue_drivers", "file"] ∧
    "questions" ∉ ["value_proposition", "business_model", "target_metrics",
      "revenue_drivers", "file"] := by
  exact ⟨by decide, by decide, by decide⟩

/-- Witness for C1 (amended) at concrete inputs. -/
theorem c1_submission_fields_witness :
    (∀ r ∈ (handleSubmitA "http://api" sampleFormA sampleStateA (.networkError "x")).1,
      (∀ k ∈ r.body.map Prod.fst,
        k ∈ ["value_proposition", "business_model", "target_metrics", "revenue_drivers",
             "business_goal", "questions", "file"]) ∧
      "value_proposition" ∈ r.body.map Prod.fst ∧
      "business_model" ∈ r.body.map Prod.fst ∧
      "target_metrics" ∈ r.body.map Prod.fst ∧
      "revenue_drivers" ∈ r.body.map Prod.fst ∧
      "business_goal" ∉ r.body.map Prod.fst ∧
      "questions" ∉ r.body.map Prod.fst ∧
      ("file" ∈ r.body.map Prod.fst ↔ sampleStateA.file.isSome = true) ∧
      ¬(∀ k ∈ ["value_proposition", "business_model", "target_metrics", "revenue_drivers",
             "business_goal", "questions", "file"], k ∈ r.body.map Prod.fst) ∧
      (∀ v, ("file", v) ∈ r.body → ∃ f, sampleStateA.file = some f ∧ v = FormValue.file f)) ∧
    (∀ r ∈ (handleSubmitB "http://api" sampleFormB sampleStateB (.networkError "x")).1,
      (∀ k ∈ r.body.map Prod.fst,
        k ∈ ["value_proposition", "business_model", "target_metrics", "revenue_drivers",
             "business_goal", "questions", "file"]) ∧
      "value_proposition" ∈ r.body.map Prod.fst ∧
      "business_model" ∈ r.body.map Prod.fst ∧
      "target_metrics" ∉ r.body.map Prod.fst ∧
      "revenue_drivers" ∉ r.body.map Prod.fst ∧
      ("business_goal" ∈ r.body.map Prod.fst ↔ sampleStateB.analysisMode = AnalysisMode.goal) ∧
      ("questions" ∈ r.body.map Prod.fst ↔
        (sampleStateB.analysisMode = AnalysisMode.questions ∧
          0 < sampleStateB.questions.length)) ∧
      ("file" ∈ r.body.map Prod.fst ↔ sampleStateB.file.isSome = true) ∧
      ¬(∀ k ∈ ["value_proposition", "business_model", "target_metrics", "revenue_drivers",
             "business_goal", "questions", "file"], k ∈ r.body.map Prod.fst) ∧
      (∀ v, ("questions", v) ∈ r.body →
        v = FormValue.text (jsonStringifyStrings (nonEmptyQuestions sampleStateB.questions)) ∧
        sampleStateB.analysisMode = AnalysisMode.questions ∧
        sampleStateB.questions ≠ []) ∧
      (∀ v, ("file", v) ∈ r.body → ∃ f, sampleStateB.file = some f ∧ v = FormValue.file f)) :=
  c1_submission_fields "http://api" sampleFormA sampleFormB sampleStateA sampleStateB
    (.networkError "x") (.networkError "x") (by decide)

/-! Claim C3. -/

/-- C3 (amended): on a successful dynamic response, the checkbox variant
stores a results object holding data.data.recommendations and, under the
metrics key the renderer reads, data.data.analysis; the questions
variant stores data.data itself, so the renderer reads its answers,
recommendations and metrics keys. -/
theorem c3_success_results_mapping (apiUrl : String) (formA : FormFieldsA)
    (formB : FormFieldsB) (sA : StateA) (sB : StateB) (data dd : Json)
    (hsucc : truthyOpt (jsMember data "success") = true) :
    (sA.useNewEndpoint = true → jsMember data "data" = some dd → dd ≠ Json.null →
      ∃ r, (handleSubmitA apiUrl formA sA (.ok data)).2.results = some r ∧
        jsMember r "recommendations" = jsMember dd "recommendations" ∧
        jsMember r "metrics" = jsMember dd "analysis" ∧
        jsMember r "answers" = none) ∧
    ((handleSubmitB apiUrl formB sB (.ok data)).2.results = jsMember data "data") := by
  cases data with
  | null => simp [truthyOpt, jsMember] at hsucc
  | bool b => simp [truthyOpt, jsMember] at hsucc
  | num q => simp [truthyOpt, jsMember] at hsucc
  | str s => simp [truthyOpt, jsMember] at hsucc
  | arr elems => simp [truthyOpt, jsMember] at hsucc
  | obj fields =>
      constructor
      · intro hnew hdd hnn
        refine ⟨Json.obj
          (jsProp "recommendations" (jsMember dd "recommendations") ++
           jsProp "metrics" (jsMember dd "analysis")), ?_, ?_, ?_, ?_⟩
        · cases dd with
          | null => exact absurd rfl hnn
          | bool b => simp [handleSubmitA, hsucc, hnew, hdd]
          | num q => simp [handleSubmitA, hsucc, hnew, hdd]
          | str s => simp [handleSubmitA, hsucc, hnew, hdd]
          | arr elems => simp [handleSubmitA, hsucc, hnew, hdd]
          | obj ddf => simp [handleSubmitA, hsucc, hnew, hdd]
        · cases hr : jsMember dd "recommendations" <;>
            cases hm : jsMember dd "analysis" <;>
            simp [jsProp, jsMember]
        · cases hr : jsMember dd "recommendations" <;>
            cases hm : jsMember dd "analysis" <;>
            simp [jsProp, jsMember]
        · cases hr : jsMember dd "recommendations" <;>
            cases hm : jsMember dd "analysis" <;>
            simp [jsProp, jsMember]
      · simp [handleSubmitB, hsucc]

/-- Counterexample to C3 as stated: a concrete successful response of
the questions variant whose stored results offer no metrics to the
renderer even though data.data.analysis is a non-empty object. -/
theorem c3_counterexample :
    (handleSubmitB "http://api" sampleFormB sampleStateB
        (.ok sampleSuccessPayload)).2.results = some sampleAnswersData ∧
    analysisResultsMetrics sampleAnswersData = none ∧
    jsMember sampleAnswersData "analysis" =
      some (Json.obj [("total_views", Json.str "100")]) ∧
    analysisResultsMetrics sampleAnswersData ≠ jsMember sampleAnswersData "analysis" := by
  refine ⟨rfl, rfl, rfl, ?_⟩
  intro h
  rw [show analysisResultsMetrics sampleAnswersData = none from rfl,
      show jsMember sampleAnswersData "analysis" =
        some (Json.obj [("total_views", Json.str "100")]) from rfl] at h
  exact Option.noConfusion h

/-- Witness for C3 (amended) at concrete inputs. -/
theorem c3_success_results_mapping_witness :
    (sampleStateA.useNewEndpoint = true →
      jsMember sampleSuccessPayload "data" = some sampleAnswersData →
      sampleAnswersData ≠ Json.null →
      ∃ r, (handleSubmitA "http://api" sampleFormA sampleStateA
          (.ok sampleSuccessPayload)).2.results = some r ∧
        jsMember r "recommendations" = jsMember sampleAnswersData "recommendations" ∧
        jsMember r "metrics" = jsMember sampleAnswersData "analysis" ∧
        jsMember r "answers" = none) ∧
    ((handleSubmitB "http://api" sampleFormB sampleStateB
        (.ok sampleSuccessPayload)).2.results = jsMember sampleSuccessPayload "data") :=
  c3_success_results_mapping "http://api" sampleFormA sampleFormB sampleStateA sampleStateB
    sampleSuccessPayload sampleAnswersData rfl

/-! Claim C5. -/

/-- C5: when the results object carries an answers list the renderer
shows the answer cards (question, answer, confidence bar when truthy,
supporting data when truthy); when the answers field is falsy it shows
the recommendations list instead; the two item views are mutually
exclusive. -/
theorem c5_answers_xor_recommendations (r : Json) :
    (∀ elems, jsMember r "answers" = some (.arr elems) →
      analysisResultsItems r = .answersView (elems.map answerCard)) ∧
    (truthyOpt (jsMember r "answers") = false →
      ∀ recs, jsMember r "recommendations" = some (.arr recs) →
        analysisResultsItems r = .recsView recs) ∧
    (∀ a, (answerCard a).question = jsMember a "question" ∧
      (answerCard a).answer = jsMember a "answer" ∧
      (∀ c, jsMember a "confidence" = some c → c.truthy = true →
        (answerCard a).confidenceBar = some c) ∧
      (∀ d, jsMember a "supporting_data" = some d → d.truthy = true →
        (answerCard a).supportingData = some d)) ∧
    (∀ cards recs, ¬(analysisResultsItems r = .answersView cards ∧
      analysisResultsItems r = .recsView recs)) := by
  refine ⟨?_, ?_, ?_, ?_⟩
  · intro elems h
    simp [analysisResultsItems, h, truthyOpt, Json.truthy]
  · intro hf recs h
    simp [analysisResultsItems, hf, h]
  · intro a
    refine ⟨rfl, rfl, ?_, ?_⟩
    · intro c hc ht
      simp [answerCard, hc, ht]
    · intro d hd ht
      simp [answerCard, hd, ht]
  · intro cards recs hpair
    obtain ⟨h1, h2⟩ := hpair
    rw [h1] at h2
    exact ItemsView.noConfusion h2

/-- Witness for C5 at a concrete results object carrying answers. -/
theorem c5_answers_xor_recommendations_witness :
    (∀ elems, jsMember sampleAnswersData "answers" = some (.arr elems) →
      analysisResultsItems sampleAnswersData = .answersView (elems.map answerCard)) ∧
    (truthyOpt (jsMember sampleAnswersData "answers") = false →
      ∀ recs, jsMember sampleAnswersData "recommendations" = some (.arr recs) →
        analysisResultsItems sampleAnswersData = .recsView recs) ∧
    (∀ a, (answerCard a).question = jsMember a "question" ∧
      (answerCard a).answer = jsMember a "answer" ∧
      (∀ c, jsMember a "confidence" = some c → c.truthy = true →
        (answerCard a).confidenceBar = some c) ∧
      (∀ d, jsMember a "supporting_data" = some d → d.truthy = true →
        (answerCard a).supportingData = some d)) ∧
    (∀ cards recs, ¬(analysisResultsItems sampleAnswersData = .answersView cards ∧
      analysisResultsItems sampleAnswersData = .recsView recs)) :=
  c5_answers_xor_recommendations sampleAnswersData
